import Mathlib

/-!
Verification development for the `sensable_phantom` haptic-device driver
(`src/phantom_node.cpp`).  The driver's numeric state and its three
execution paths — the servo-rate callback `phantom_state_callback`, the
publish-loop body `publish_phantom_state`, and the asynchronous
`wrench_callback` — are embedded shallowly below.  Real-number arithmetic
of the C++ `double`s is modelled over `ℚ` with the exact decimal literals
of the source; 3-vectors (`hduVector3Dd`, `tf::Vector3`) become `Vec3`,
and rotations (`tf::Quaternion`) become 3×3 rotation matrices `Rot3`
(quaternion multiplication and inversion correspond to rotation-matrix
multiplication and transposition).
-/

namespace Phantom

/-- A 3-vector of rationals, modelling `hduVector3Dd` / `tf::Vector3`. -/
structure Vec3 where
  x : ℚ
  y : ℚ
  z : ℚ
  deriving DecidableEq, Repr

namespace Vec3

def zero : Vec3 := ⟨0, 0, 0⟩

instance : Add Vec3 := ⟨fun a b => ⟨a.x + b.x, a.y + b.y, a.z + b.z⟩⟩
instance : Sub Vec3 := ⟨fun a b => ⟨a.x - b.x, a.y - b.y, a.z - b.z⟩⟩
instance : Neg Vec3 := ⟨fun a => ⟨-a.x, -a.y, -a.z⟩⟩
instance : HMul ℚ Vec3 Vec3 := ⟨fun k v => ⟨k * v.x, k * v.y, k * v.z⟩⟩
instance : HMul Vec3 ℚ Vec3 := ⟨fun v k => ⟨v.x * k, v.y * k, v.z * k⟩⟩
instance : HDiv Vec3 ℚ Vec3 := ⟨fun v k => ⟨v.x / k, v.y / k, v.z / k⟩⟩

end Vec3

/-- A 3×3 matrix of rationals, modelling the rotation part of a
`tf::Transform` (`tf::Quaternion` / `tf::Matrix3x3`), row-major. -/
structure Rot3 where
  m00 : ℚ
  m01 : ℚ
  m02 : ℚ
  m10 : ℚ
  m11 : ℚ
  m12 : ℚ
  m20 : ℚ
  m21 : ℚ
  m22 : ℚ
  deriving DecidableEq, Repr

namespace Rot3

/-- Identity rotation: `tf::createQuaternionFromRPY(0, 0, 0)`. -/
def id : Rot3 := ⟨1, 0, 0, 0, 1, 0, 0, 0, 1⟩

/-- Rotation-matrix product; corresponds to `tf::Quaternion` multiplication. -/
def mul (a b : Rot3) : Rot3 :=
  ⟨a.m00 * b.m00 + a.m01 * b.m10 + a.m02 * b.m20,
   a.m00 * b.m01 + a.m01 * b.m11 + a.m02 * b.m21,
   a.m00 * b.m02 + a.m01 * b.m12 + a.m02 * b.m22,
   a.m10 * b.m00 + a.m11 * b.m10 + a.m12 * b.m20,
   a.m10 * b.m01 + a.m11 * b.m11 + a.m12 * b.m21,
   a.m10 * b.m02 + a.m11 * b.m12 + a.m12 * b.m22,
   a.m20 * b.m00 + a.m21 * b.m10 + a.m22 * b.m20,
   a.m20 * b.m01 + a.m21 * b.m11 + a.m22 * b.m21,
   a.m20 * b.m02 + a.m21 * b.m12 + a.m22 * b.m22⟩

/-- Apply a rotation to a vector. -/
def apply (a : Rot3) (v : Vec3) : Vec3 :=
  ⟨a.m00 * v.x + a.m01 * v.y + a.m02 * v.z,
   a.m10 * v.x + a.m11 * v.y + a.m12 * v.z,
   a.m20 * v.x + a.m21 * v.y + a.m22 * v.z⟩

/-- Transpose; for a rotation matrix this is its inverse, corresponding to
`tf::Quaternion::inverse()`. -/
def transpose (a : Rot3) : Rot3 :=
  ⟨a.m00, a.m10, a.m20, a.m01, a.m11, a.m21, a.m02, a.m12, a.m22⟩

end Rot3

/-- A rigid transform (rotation + origin), modelling `tf::Transform`. -/
structure TF where
  rot : Rot3
  origin : Vec3
  deriving DecidableEq, Repr

namespace TF

/-- `tf::Transform` composition: `(a*b)(x) = a.rot (b.rot x + b.origin) + a.origin`. -/
def comp (a b : TF) : TF :=
  ⟨a.rot.mul b.rot, a.origin + a.rot.apply b.origin⟩

/-- The identity transform (`hduMatrix::createTranslation(0, 0, 0)`). -/
def idT : TF := ⟨Rot3.id, Vec3.zero⟩

end TF

/-- The shared mutable record `PhantomState` of `phantom_node.cpp`, plus the
function-local `static bool lock_flag` of `phantom_state_callback`, modelled
as the field `lock_flag` so its evolution is explicit. Buttons are C `int`s. -/
structure PState where
  position : Vec3
  velocity : Vec3
  inp_vel1 : Vec3
  inp_vel2 : Vec3
  inp_vel3 : Vec3
  out_vel1 : Vec3
  out_vel2 : Vec3
  out_vel3 : Vec3
  pos_hist1 : Vec3
  pos_hist2 : Vec3
  rot : Vec3
  joints : Vec3
  force : Vec3
  torque : Vec3
  hd_cur_transform : TF
  thetas : List ℚ
  buttons0 : Int
  buttons1 : Int
  buttons_prev0 : Int
  buttons_prev1 : Int
  lock : Bool
  lock_pos : Vec3
  lock_flag : Bool
  deriving DecidableEq, Repr

/-- The state as established by `PhantomROS::init` (lines 141–158): button
fields and all histories zeroed, `lock := locked_` (the `locked` parameter),
`lock_pos := zeros`, `hd_cur_transform := createTranslation(0,0,0)`.  Fields
not assigned in `init` (`position`, `rot`, `joints`, `force`, `torque`) are
zero from the `hduVector3Dd` default constructor; `lock_flag` models the
static latch, initialized `true` at its declaration (line 258). -/
def initState (locked : Bool) : PState :=
  { position := Vec3.zero
    velocity := Vec3.zero
    inp_vel1 := Vec3.zero
    inp_vel2 := Vec3.zero
    inp_vel3 := Vec3.zero
    out_vel1 := Vec3.zero
    out_vel2 := Vec3.zero
    out_vel3 := Vec3.zero
    pos_hist1 := Vec3.zero
    pos_hist2 := Vec3.zero
    rot := Vec3.zero
    joints := Vec3.zero
    force := Vec3.zero
    torque := Vec3.zero
    hd_cur_transform := TF.idT
    thetas := [0, 0, 0, 0, 0, 0, 0]
    buttons0 := 0
    buttons1 := 0
    buttons_prev0 := 0
    buttons_prev1 := 0
    lock := locked
    lock_pos := Vec3.zero
    lock_flag := true }

/-- The per-cycle hardware samples read by `hdGetDoublev`/`hdGetIntegerv`
inside `phantom_state_callback`: gimbal angles, position, joint angles, the
current device transform, and the two button bits of `HD_CURRENT_BUTTONS`. -/
structure ServoIn where
  gimbal : Vec3
  position : Vec3
  joints : Vec3
  transform : TF
  button1 : Bool
  button2 : Bool
  deriving DecidableEq, Repr

/-- One invocation of the servo-rate callback `phantom_state_callback`
(lines 256–324), translated statement by statement:
velocity estimation (lines 268–273), history shifts (274–281), the
lock/unlock force law with the static latch (284–296), and button sampling
(304–307).  `torque` is not assigned anywhere in the callback. -/
def servoStep (inp : ServoIn) (s : PState) : PState :=
  let position := inp.position
  let vel_buff : Vec3 :=
    (position * (3 : ℚ) - (4 : ℚ) * s.pos_hist1 + s.pos_hist2) / (0.002 : ℚ)
  let velocity : Vec3 :=
    ((0.2196 : ℚ) * (vel_buff + s.inp_vel3)
        + (0.6588 : ℚ) * (s.inp_vel1 + s.inp_vel2)) / (1000 : ℚ)
      - ((-2.7488 : ℚ) * s.out_vel1 + (2.5282 : ℚ) * s.out_vel2
          - (0.7776 : ℚ) * s.out_vel3)
  let force : Vec3 :=
    if s.lock then
      (0.04 : ℚ) * (s.lock_pos - position) - (0.001 : ℚ) * velocity
    else if s.lock_flag then Vec3.zero
    else s.force
  let lock_flag : Bool :=
    if s.lock then true
    else if s.lock_flag then false
    else s.lock_flag
  { s with
    rot := inp.gimbal
    position := position
    joints := inp.joints
    hd_cur_transform := inp.transform
    velocity := velocity
    pos_hist2 := s.pos_hist1
    pos_hist1 := position
    inp_vel3 := s.inp_vel2
    inp_vel2 := s.inp_vel1
    inp_vel1 := vel_buff
    out_vel3 := s.out_vel2
    out_vel2 := s.out_vel1
    out_vel1 := velocity
    force := force
    lock_flag := lock_flag
    buttons0 := if inp.button1 then 1 else 0
    buttons1 := if inp.button2 then 1 else 0
    thetas := [0, inp.joints.x, inp.joints.y, inp.joints.z - inp.joints.y,
               inp.gimbal.x, inp.gimbal.y, inp.gimbal.z] }

/-- The force/torque pair written to the hardware by `hdSetDoublev`
(lines 299–301); both equal the corresponding post-callback state fields. -/
def servoCommand (inp : ServoIn) (s : PState) : Vec3 × Vec3 :=
  ((servoStep inp s).force, (servoStep inp s).torque)

/-- One invocation of `PhantomROS::wrench_callback` (lines 166–203).
`tfAt` models the `tf::TransformListener` lookup from the message's frame
into `sensable_frame_name_` at a requested time: `some g` when the lookup
succeeds with vector transform `g`, `none` when `transformVector` throws.
The callback overwrites the lookup stamp with `ros::Time(0)` (line 174),
so the lookup is requested at time `0` regardless of `stamp`.  On an
exception the `catch` block only logs (lines 186–189) and execution falls
through to lines 195–202, which consume the still-default-initialized
(zero) `f_out`/`t_out` vectors. -/
def wrench_callback (damping_k : ℚ) (tfAt : ℚ → Option (Vec3 → Vec3))
    (stamp : ℚ) (f t : Vec3) (s : PState) : PState :=
  let lookupTime : ℚ := 0
  let outs : Vec3 × Vec3 :=
    match tfAt lookupTime with
    | some g => (g f, g t)
    | none => (Vec3.zero, Vec3.zero)
  { s with
    force := ⟨outs.1.x - damping_k * s.velocity.x,
              outs.1.y - damping_k * s.velocity.y,
              outs.1.z - damping_k * s.velocity.z⟩
    torque := outs.2 }

/-- The static frame `base_link → link_0` broadcast by
`publish_phantom_state` (lines 210–212): origin `(0, 0, table_offset)`,
identity rotation. -/
def baseOffsetFrame (table_offset : ℚ) : TF :=
  ⟨Rot3.id, ⟨0, 0, table_offset⟩⟩

/-- The fixed calibration rotation
`tf::createQuaternionFromRPY(M_PI/2, 0, -M_PI/2)` (line 218) as a rotation
matrix: `Rz(-π/2) · Ry(0) · Rx(π/2)`. -/
def sensableRot : Rot3 := ⟨0, 0, -1, -1, 0, 0, 0, 1, 0⟩

/-- The static frame `link_0 → sensable_origin` broadcast by
`publish_phantom_state` (lines 217–220): origin `(-0.2, 0, 0)`,
rotation `sensableRot`. -/
def sensableFrame : TF := ⟨sensableRot, ⟨-0.2, 0, 0⟩⟩

/-- The pose computation of `publish_phantom_state` (lines 222–238):
scale the device transform's origin from millimeters to meters (line 228),
left-compose with `sensable` (line 230), then right-multiply the rotation
by `sensable`'s inverse rotation (line 232).  The result is published with
`frame_id = link_0`; the `base_link → link_0` offset is not composed in. -/
def composedPose (dev : TF) : TF :=
  let scaled : TF := ⟨dev.rot, dev.origin / (1000 : ℚ)⟩
  let c : TF := TF.comp sensableFrame scaled
  ⟨c.rot.mul sensableRot.transpose, c.origin⟩

/-- The button-edge block of `publish_phantom_state` (lines 240–252):
on any bit change, toggle `lock` when both current bits equal 1, emit an
event carrying both bits, and refresh `buttons_prev`; otherwise nothing.
Returns the updated state and the optional emitted event. -/
def buttonStep (s : PState) : PState × Option (Int × Int) :=
  if s.buttons0 ≠ s.buttons_prev0 ∨ s.buttons1 ≠ s.buttons_prev1 then
    ({ s with
        lock := if s.buttons0 = s.buttons1 ∧ s.buttons0 = 1 then !s.lock else s.lock
        buttons_prev0 := s.buttons0
        buttons_prev1 := s.buttons1 },
     some (s.buttons0, s.buttons1))
  else (s, none)

/-- One invocation of `PhantomROS::publish_phantom_state` (lines 205–253):
the published pose (in frame `link_0`), the button event, and the updated
state.  The two static frames broadcast each cycle are `baseOffsetFrame`
and `sensableFrame`. -/
def publish_phantom_state (s : PState) : PState × TF × Option (Int × Int) :=
  let pose := composedPose s.hd_cur_transform
  let r := buttonStep s
  (r.1, pose, r.2)

/-- Reachability of driver states: the initial state for either value of
the `locked` parameter, closed under the servo callback, the wrench
callback, and the publish-loop button block. -/
inductive Reachable : PState → Prop
  | init (locked : Bool) : Reachable (initState locked)
  | servo (inp : ServoIn) {s : PState} : Reachable s → Reachable (servoStep inp s)
  | wrench (k : ℚ) (tfAt : ℚ → Option (Vec3 → Vec3)) (stamp : ℚ) (f t : Vec3)
      {s : PState} : Reachable s → Reachable (wrench_callback k tfAt stamp f t s)
  | publish {s : PState} : Reachable s → Reachable (buttonStep s).1

/-- The pose as the spec's §4.4 words describe it: scale the device
transform's translation from millimeters to meters, compose
`base_offset_frame ∘ sensable_offset_frame ∘ device_transform`, then
right-multiply the composed orientation by the inverse of
`sensable_offset_frame`'s rotation.  Written from the spec for comparison
with `composedPose`, which is written from the code. -/
def specPoseWithBase (table_offset : ℚ) (dev : TF) : TF :=
  let scaled : TF := ⟨dev.rot, dev.origin / (1000 : ℚ)⟩
  let c : TF := TF.comp (baseOffsetFrame table_offset) (TF.comp sensableFrame scaled)
  ⟨c.rot.mul sensableRot.transpose, c.origin⟩

/-- The amended pose description: scale the translation from millimeters to
meters, compose only `sensable_offset_frame ∘ device_transform` (the pose is
published in the first-joint frame `link_0`; `base_offset_frame` is only
broadcast as a static frame, never composed in), then right-multiply the
orientation by the inverse of `sensable_offset_frame`'s rotation. -/
def specPoseLink0 (dev : TF) : TF :=
  let scaled : TF := ⟨dev.rot, dev.origin / (1000 : ℚ)⟩
  let c : TF := TF.comp sensableFrame scaled
  ⟨c.rot.mul sensableRot.transpose, c.origin⟩

end Phantom

namespace Phantom

/-! ### Helper lemmas on `Vec3` arithmetic -/

theorem Vec3.ext3 (a b : Vec3) (hx : a.x = b.x) (hy : a.y = b.y) (hz : a.z = b.z) :
    a = b := by
  cases a; cases b; cases hx; cases hy; cases hz; rfl

@[simp] theorem Vec3.add_x (a b : Vec3) : (a + b).x = a.x + b.x := rfl

@[simp] theorem Vec3.add_y (a b : Vec3) : (a + b).y = a.y + b.y := rfl

@[simp] theorem Vec3.add_z (a b : Vec3) : (a + b).z = a.z + b.z := rfl

@[simp] theorem Vec3.sub_x (a b : Vec3) : (a - b).x = a.x - b.x := rfl

@[simp] theorem Vec3.sub_y (a b : Vec3) : (a - b).y = a.y - b.y := rfl

@[simp] theorem Vec3.sub_z (a b : Vec3) : (a - b).z = a.z - b.z := rfl

@[simp] theorem Vec3.smul_x (k : ℚ) (a : Vec3) : (k * a).x = k * a.x := rfl

@[simp] theorem Vec3.smul_y (k : ℚ) (a : Vec3) : (k * a).y = k * a.y := rfl

@[simp] theorem Vec3.smul_z (k : ℚ) (a : Vec3) : (k * a).z = k * a.z := rfl

@[simp] theorem Vec3.mulk_x (a : Vec3) (k : ℚ) : (a * k).x = a.x * k := rfl

@[simp] theorem Vec3.mulk_y (a : Vec3) (k : ℚ) : (a * k).y = a.y * k := rfl

@[simp] theorem Vec3.mulk_z (a : Vec3) (k : ℚ) : (a * k).z = a.z * k := rfl

@[simp] theorem Vec3.div_x (a : Vec3) (k : ℚ) : (a / k).x = a.x / k := rfl

@[simp] theorem Vec3.div_y (a : Vec3) (k : ℚ) : (a / k).y = a.y / k := rfl

@[simp] theorem Vec3.div_z (a : Vec3) (k : ℚ) : (a / k).z = a.z / k := rfl

theorem Vec3.mk_add_mk (a1 a2 a3 b1 b2 b3 : ℚ) :
    (⟨a1, a2, a3⟩ + ⟨b1, b2, b3⟩ : Vec3) = ⟨a1 + b1, a2 + b2, a3 + b3⟩ := rfl

theorem Vec3.mk_sub_mk (a1 a2 a3 b1 b2 b3 : ℚ) :
    (⟨a1, a2, a3⟩ - ⟨b1, b2, b3⟩ : Vec3) = ⟨a1 - b1, a2 - b2, a3 - b3⟩ := rfl

theorem Vec3.smul_mk (k a1 a2 a3 : ℚ) :
    (k * (⟨a1, a2, a3⟩ : Vec3)) = (⟨k * a1, k * a2, k * a3⟩ : Vec3) := rfl

theorem Vec3.mk_mulk (a1 a2 a3 k : ℚ) :
    ((⟨a1, a2, a3⟩ : Vec3) * k) = (⟨a1 * k, a2 * k, a3 * k⟩ : Vec3) := rfl

theorem Vec3.mk_divk (a1 a2 a3 k : ℚ) :
    ((⟨a1, a2, a3⟩ : Vec3) / k) = (⟨a1 / k, a2 / k, a3 / k⟩ : Vec3) := rfl

@[simp] theorem Vec3.zero_x : (Vec3.zero).x = 0 := rfl

@[simp] theorem Vec3.zero_y : (Vec3.zero).y = 0 := rfl

@[simp] theorem Vec3.zero_z : (Vec3.zero).z = 0 := rfl

end Phantom

namespace Phantom

/-! ### Frame-condition helper lemmas -/

theorem servoStep_lock (inp : ServoIn) (s : PState) : (servoStep inp s).lock = s.lock := rfl

theorem servoStep_lock_pos (inp : ServoIn) (s : PState) :
    (servoStep inp s).lock_pos = s.lock_pos := rfl

theorem buttonStep_lock_pos (s : PState) : (buttonStep s).1.lock_pos = s.lock_pos := by
  unfold buttonStep
  split <;> rfl

theorem servoStep_force_of_unlocked (inp : ServoIn) (s : PState) (h : s.lock = false) :
    (servoStep inp s).force = if s.lock_flag then Vec3.zero else s.force := by
  simp [servoStep, h]

theorem servoStep_lock_flag_of_unlocked (inp : ServoIn) (s : PState) (h : s.lock = false) :
    (servoStep inp s).lock_flag = false := by
  simp only [servoStep, h]
  cases s.lock_flag <;> simp

/-! ### Claim theorems -/

/-- Claim C1, counterexample: at `device_transform` = identity (the initial
state's transform) and `table_offset = 0.135`, the pose published by
`publish_phantom_state` differs from the spec's full composition
`base_offset_frame ∘ sensable_offset_frame ∘ device_transform` — their
z-origins are `0` and `0.135` respectively. -/
theorem C1_pose_full_composition_fails :
    ¬ ((publish_phantom_state (initState false)).2.1
        = specPoseWithBase 0.135 (initState false).hd_cur_transform) := by
  simp only [publish_phantom_state, composedPose, specPoseWithBase, baseOffsetFrame,
    sensableFrame, sensableRot, initState, TF.idT, TF.comp, Rot3.mul, Rot3.apply,
    Rot3.id, Rot3.transpose, Vec3.zero, Vec3.mk_add_mk, Vec3.mk_sub_mk, Vec3.mk_divk,
    TF.mk.injEq, Rot3.mk.injEq, Vec3.mk.injEq]
  norm_num

/-- Claim C1, amended: every pose published by `publish_phantom_state`
equals `sensable_offset_frame ∘ device_transform` with the translation first
scaled from millimeters to meters and the composed orientation then
right-multiplied by the inverse of `sensable_offset_frame`'s rotation;
`base_offset_frame` is not composed in (the pose is published in the
first-joint frame `link_0`).  With `device_transform` = identity the
published pose is the fixed calibration offset `(-0.2, 0, 0)` with identity
attitude, and `sensable_offset_frame`'s rotation cancels against its
inverse exactly. -/
theorem C1_pose_link0_composition (s : PState) :
    (publish_phantom_state s).2.1 = specPoseLink0 s.hd_cur_transform
    ∧ (publish_phantom_state (initState false)).2.1 = ⟨Rot3.id, ⟨-0.2, 0, 0⟩⟩
    ∧ sensableRot.mul sensableRot.transpose = Rot3.id := by
  refine ⟨rfl, ?_, ?_⟩
  · simp only [publish_phantom_state, composedPose, sensableFrame, sensableRot,
      initState, TF.idT, TF.comp, Rot3.mul, Rot3.apply, Rot3.id, Rot3.transpose,
      Vec3.zero, Vec3.mk_add_mk, Vec3.mk_divk, TF.mk.injEq, Rot3.mk.injEq, Vec3.mk.injEq]
    norm_num
  · simp only [Rot3.mul, sensableRot, Rot3.transpose, Rot3.id, Rot3.mk.injEq]
    norm_num

/-- Claim C2: contrary to the claim, a failed frame-transform lookup does
NOT leave the state unchanged.  Starting from commanded force `(5,5,5)`,
torque `(7,7,7)` and zero velocity, a failing lookup overwrites the force
and the torque with the zero vector: the `catch` block of `wrench_callback`
only logs, execution falls through, and the default-initialized (zero)
`f_out`/`t_out` vectors are consumed by the unconditional writes. -/
theorem C2_wrench_failure_still_writes :
    (wrench_callback 0.001 (fun _ => none) 5 ⟨1, 1, 1⟩ ⟨2, 2, 2⟩
        { initState false with force := ⟨5, 5, 5⟩, torque := ⟨7, 7, 7⟩ }).force = Vec3.zero
    ∧ (wrench_callback 0.001 (fun _ => none) 5 ⟨1, 1, 1⟩ ⟨2, 2, 2⟩
        { initState false with force := ⟨5, 5, 5⟩, torque := ⟨7, 7, 7⟩ }).torque = Vec3.zero
    ∧ ({ initState false with force := ⟨5, 5, 5⟩, torque := ⟨7, 7, 7⟩ } : PState).force
        ≠ Vec3.zero := by
  refine ⟨?_, rfl, ?_⟩
  · simp only [wrench_callback, initState, Vec3.zero, Vec3.mk.injEq]
    norm_num
  · simp only [initState, Vec3.zero, Vec3.mk.injEq]
    norm_num

/-- Claim C3: on an unlocked servo cycle, the force is zeroed exactly when
the latch was set (the cycle of the locked→unlocked transition), the latch
is cleared, and on any following cycle the force is left untouched — it is
never re-zeroed on a second consecutive unlocked cycle. -/
theorem C3_unlock_zeroes_force_once (inp : ServoIn) (s : PState) (h : s.lock = false) :
    (servoStep inp s).force = (if s.lock_flag then Vec3.zero else s.force)
    ∧ (servoStep inp s).lock_flag = false
    ∧ (∀ inp2 : ServoIn, (servoStep inp2 (servoStep inp s)).force = (servoStep inp s).force) := by
  have hl : (servoStep inp s).lock = false := by rw [servoStep_lock]; exact h
  have hf : (servoStep inp s).lock_flag = false := servoStep_lock_flag_of_unlocked inp s h
  refine ⟨servoStep_force_of_unlocked inp s h, hf, fun inp2 => ?_⟩
  rw [servoStep_force_of_unlocked inp2 (servoStep inp s) hl, hf]
  simp

/-- Claim C3 witness: from the initial unlocked state (latch true), one
servo cycle zeroes the force and clears the latch. -/
theorem C3_witness :
    (servoStep ⟨Vec3.zero, Vec3.zero, Vec3.zero, TF.idT, false, false⟩ (initState false)).force
        = Vec3.zero
    ∧ (servoStep ⟨Vec3.zero, Vec3.zero, Vec3.zero, TF.idT, false, false⟩
        (initState false)).lock_flag = false := by
  have h := C3_unlock_zeroes_force_once ⟨Vec3.zero, Vec3.zero, Vec3.zero, TF.idT, false, false⟩
    (initState false) rfl
  exact ⟨h.1.trans rfl, h.2.1⟩

/-- Claim C4: `lock_pos` is written exactly once, to the zero vector at
initialization; no transition (servo callback, wrench callback, publish
button block) ever rewrites it, so every reachable state has
`lock_pos = (0, 0, 0)`. -/
theorem C4_lock_pos_always_zero (s : PState) (h : Reachable s) : s.lock_pos = Vec3.zero := by
  induction h with
  | init locked => rfl
  | servo inp _ ih => exact ih
  | wrench k tfAt stamp f t _ ih => exact ih
  | publish _ ih => rw [buttonStep_lock_pos]; exact ih

/-- Claim C4 witness: the initial state is reachable and its `lock_pos` is
the zero vector. -/
theorem C4_witness : Reachable (initState false) ∧ (initState false).lock_pos = Vec3.zero :=
  ⟨Reachable.init false, C4_lock_pos_always_zero (initState false) (Reachable.init false)⟩

/-- Claim C5: on every locked servo cycle the commanded force equals
`0.04·(lock_pos − position) − 0.001·velocity` (with the cycle's fresh
velocity estimate) and the latch is set; consequently when the position
equals `lock_pos` and the velocity estimate is zero, the commanded force is
exactly the zero vector. -/
theorem C5_lock_law (inp : ServoIn) (s : PState) (h : s.lock = true) :
    (servoStep inp s).force
        = (0.04 : ℚ) * (s.lock_pos - inp.position) - (0.001 : ℚ) * (servoStep inp s).velocity
    ∧ (servoStep inp s).lock_flag = true
    ∧ (inp.position = s.lock_pos → (servoStep inp s).velocity = Vec3.zero →
        (servoStep inp s).force = Vec3.zero) := by
  have hforce : (servoStep inp s).force
      = (0.04 : ℚ) * (s.lock_pos - inp.position) - (0.001 : ℚ) * (servoStep inp s).velocity := by
    simp [servoStep, h]
  refine ⟨hforce, by simp [servoStep, h], fun hp hv => ?_⟩
  rw [hforce, hp, hv]
  apply Vec3.ext3 <;> simp

/-- Claim C5 witness: locked at the origin with zero histories, the servo
cycle commands exactly zero force. -/
theorem C5_witness :
    (servoStep ⟨Vec3.zero, Vec3.zero, Vec3.zero, TF.idT, false, false⟩ (initState true)).force
      = Vec3.zero := by
  have h := C5_lock_law ⟨Vec3.zero, Vec3.zero, Vec3.zero, TF.idT, false, false⟩
    (initState true) rfl
  refine h.2.2 rfl ?_
  simp only [servoStep, initState, Vec3.zero, Vec3.mk_add_mk, Vec3.mk_sub_mk, Vec3.smul_mk,
    Vec3.mk_mulk, Vec3.mk_divk, Vec3.mk.injEq]
  norm_num

/-- Claim C6: every servo cycle computes
`raw = (3·position − 4·pos_hist1 + pos_hist2) / 0.002`, then
`velocity = (0.2196·(raw + inp_vel3) + 0.6588·(inp_vel1 + inp_vel2)) / 1000
− (−2.7488·out_vel1 + 2.5282·out_vel2 − 0.7776·out_vel3)` with exactly
these coefficients, and shifts the histories read-before-write:
`pos_hist2 ← pos_hist1`, `pos_hist1 ← position`,
`inp_vel3 ← inp_vel2 ← inp_vel1 ← raw`,
`out_vel3 ← out_vel2 ← out_vel1 ← velocity`. -/
theorem C6_velocity_filter (inp : ServoIn) (s : PState) :
    (servoStep inp s).velocity =
      ((0.2196 : ℚ) * ((((3 : ℚ) * inp.position - (4 : ℚ) * s.pos_hist1 + s.pos_hist2)
            / (0.002 : ℚ)) + s.inp_vel3)
        + (0.6588 : ℚ) * (s.inp_vel1 + s.inp_vel2)) / (1000 : ℚ)
      - ((-2.7488 : ℚ) * s.out_vel1 + (2.5282 : ℚ) * s.out_vel2 - (0.7776 : ℚ) * s.out_vel3)
    ∧ (servoStep inp s).pos_hist2 = s.pos_hist1
    ∧ (servoStep inp s).pos_hist1 = inp.position
    ∧ (servoStep inp s).inp_vel3 = s.inp_vel2
    ∧ (servoStep inp s).inp_vel2 = s.inp_vel1
    ∧ (servoStep inp s).inp_vel1
        = ((3 : ℚ) * inp.position - (4 : ℚ) * s.pos_hist1 + s.pos_hist2) / (0.002 : ℚ)
    ∧ (servoStep inp s).out_vel3 = s.out_vel2
    ∧ (servoStep inp s).out_vel2 = s.out_vel1
    ∧ (servoStep inp s).out_vel1 = (servoStep inp s).velocity := by
  refine ⟨?_, rfl, rfl, rfl, rfl, ?_, rfl, rfl, rfl⟩
  · apply Vec3.ext3 <;> simp [servoStep] <;> ring
  · apply Vec3.ext3 <;> simp [servoStep] <;> ring

/-- Claim C7: on every publish cycle, if either button bit changed then the
lock flag is toggled exactly when both current bits are 1, an event with
both current bits is emitted unconditionally, and `buttons_prev` is set to
the current bits; if neither bit changed, the state is untouched and no
event is emitted. -/
theorem C7_button_edge (s : PState) :
    (buttonStep s).1 = (if s.buttons0 ≠ s.buttons_prev0 ∨ s.buttons1 ≠ s.buttons_prev1 then
        { s with
            lock := if s.buttons0 = 1 ∧ s.buttons1 = 1 then !s.lock else s.lock
            buttons_prev0 := s.buttons0
            buttons_prev1 := s.buttons1 }
      else s)
    ∧ (buttonStep s).2 = (if s.buttons0 ≠ s.buttons_prev0 ∨ s.buttons1 ≠ s.buttons_prev1 then
        some (s.buttons0, s.buttons1) else none) := by
  have hiff : (s.buttons0 = s.buttons1 ∧ s.buttons0 = 1) ↔ (s.buttons0 = 1 ∧ s.buttons1 = 1) := by
    constructor
    · rintro ⟨h1, h2⟩; exact ⟨h2, h1.symm.trans h2⟩
    · rintro ⟨h1, h2⟩; exact ⟨h1.trans h2.symm, h1⟩
  by_cases hch : s.buttons0 ≠ s.buttons_prev0 ∨ s.buttons1 ≠ s.buttons_prev1
  · simp only [buttonStep, hiff, if_pos hch]
    exact ⟨trivial, trivial⟩
  · simp only [buttonStep, if_neg hch]
    exact ⟨trivial, trivial⟩

/-- Claim C8: when the frame-transform lookup succeeds with vector
transform `g`, the stored force on each axis is the transformed force minus
`damping_k` times the velocity on that axis, and the stored torque is the
raw (undamped) transformed torque. -/
theorem C8_wrench_damping (k : ℚ) (g : Vec3 → Vec3) (tfAt : ℚ → Option (Vec3 → Vec3))
    (stamp : ℚ) (f t : Vec3) (s : PState) (h : tfAt 0 = some g) :
    (wrench_callback k tfAt stamp f t s).force
        = ⟨(g f).x - k * s.velocity.x, (g f).y - k * s.velocity.y, (g f).z - k * s.velocity.z⟩
    ∧ (wrench_callback k tfAt stamp f t s).torque = g t := by
  simp only [wrench_callback]
  rw [h]
  exact ⟨rfl, rfl⟩

/-- Claim C8 witness: transformed force `(1,0,0)`, velocity `(2,0,0)` and
`damping_k = 0.001` yield commanded force `(0.998, 0, 0)`. -/
theorem C8_witness :
    (wrench_callback 0.001 (fun _ => some (fun v => v)) 0 ⟨1, 0, 0⟩ ⟨0, 0, 0⟩
        { initState false with velocity := ⟨2, 0, 0⟩ }).force = ⟨0.998, 0, 0⟩ :=
  ((C8_wrench_damping 0.001 (fun v => v) (fun _ => some (fun v => v)) 0 ⟨1, 0, 0⟩ ⟨0, 0, 0⟩
      { initState false with velocity := ⟨2, 0, 0⟩ } rfl).1).trans
    (by simp only [initState, Vec3.mk.injEq]; norm_num)

/-- Claim C9: the servo callback never writes `torque` in any state —
after any servo cycle, the `torque` field and the torque commanded to the
hardware both equal the value the wrench handler last wrote. -/
theorem C9_servo_preserves_torque (inp : ServoIn) (s : PState) :
    (servoStep inp s).torque = s.torque ∧ (servoCommand inp s).2 = s.torque :=
  ⟨rfl, rfl⟩

/-- Claim C10: `wrench_callback` discards the inbound message's stamp and
requests the transform at time 0 (latest available): its result is
unchanged under any change of the stamp and any change of the lookup away
from time 0. -/
theorem C10_wrench_stamp_ignored (k : ℚ) (tfAt tfAt2 : ℚ → Option (Vec3 → Vec3))
    (stamp stamp2 : ℚ) (f t : Vec3) (s : PState) (h : tfAt 0 = tfAt2 0) :
    wrench_callback k tfAt stamp f t s = wrench_callback k tfAt2 stamp2 f t s := by
  simp only [wrench_callback]
  rw [h]

/-- Claim C10 witness: two inbound commands that differ only in their
stamps produce identical states. -/
theorem C10_witness :
    wrench_callback 0.001 (fun _ => some (fun v => v)) 3 ⟨1, 0, 0⟩ ⟨0, 0, 0⟩ (initState false)
      = wrench_callback 0.001 (fun _ => some (fun v => v)) 7
          ⟨1, 0, 0⟩ ⟨0, 0, 0⟩ (initState false) :=
  C10_wrench_stamp_ignored 0.001 _ _ 3 7 ⟨1, 0, 0⟩ ⟨0, 0, 0⟩ (initState false) rfl

end Phantom
